import Mathlib

/-!
Shallow embedding of `opsdroid/connector/slack/connector.py` (class
`ConnectorSlack`) and proofs about the claims of the specification.

Python values flowing through the connector (JSON payloads, API responses,
event fields) are modelled by `JValue`; raised exceptions by `PyErr` and
`Except`; the mutable connector object by an explicit `ConnState` threaded
through each operation.  External collaborators (the Slack SDK client, the
event creator, the host's `opsdroid.parse`) are parameters of the embedded
functions.
-/

/-- JSON-like values: payload bodies, API response data, event fields. -/
inductive JValue where
  | null
  | bool (b : Bool)
  | num (n : Int)
  | str (s : String)
  | arr (items : List JValue)
  | obj (fields : List (String × JValue))

/-- Python exceptions that the connector code can raise or catch. -/
inductive PyErr where
  | slackApiError (msg : String)
  | keyError (key : String)
  | typeError (msg : String)
  | jsonDecodeError (msg : String)
  | otherError (msg : String)
  deriving DecidableEq

/-- `except SlackApiError` catches exactly this constructor. -/
def PyErr.isSlackApi : PyErr → Bool
  | .slackApiError _ => true
  | _ => false

/-- `str(error)`: the text of the exception, as used by `"invalid_name" in str(error)`. -/
def PyErr.text : PyErr → String
  | .slackApiError m => m
  | .keyError m => m
  | .typeError m => m
  | .jsonDecodeError m => m
  | .otherError m => m

/-- First-match association lookup: `d[k]` on a Python dict (keys are unique,
so first match is the match). -/
def jdictGet : List (String × JValue) → String → Option JValue
  | [], _ => none
  | (k', v) :: rest, k => if k' = k then some v else jdictGet rest k

/-- `d[k] = v` on a Python dict: overwrite the entry if the key exists,
otherwise append a new entry (Python dicts preserve insertion order). -/
def dictSet : List (String × JValue) → String → JValue → List (String × JValue)
  | [], k, v => [(k, v)]
  | (k', v') :: rest, k, v =>
      if k' = k then (k, v) :: rest else (k', v') :: dictSet rest k v

mutual

/-- Structural equality of values, embedding `==`/`!=` on the payload values
the connector compares (the compared values are strings in every call site). -/
def jeq : JValue → JValue → Bool
  | .null, .null => true
  | .bool a, .bool b => a == b
  | .num a, .num b => a == b
  | .str a, .str b => a == b
  | .arr as, .arr bs => jeqList as bs
  | .obj as, .obj bs => jeqFields as bs
  | _, _ => false

def jeqList : List JValue → List JValue → Bool
  | [], [] => true
  | a :: as, b :: bs => jeq a b && jeqList as bs
  | _, _ => false

def jeqFields : List (String × JValue) → List (String × JValue) → Bool
  | [], [] => true
  | (k, a) :: as, (l, b) :: bs => k == l && jeq a b && jeqFields as bs
  | _, _ => false

end

/-- `v == "lit"`: Python equality of an arbitrary value against a string
literal holds only for the equal string. -/
def jeqStr : JValue → String → Bool
  | .str s, t => s = t
  | _, _ => false

/-- Membership of `needle` as a contiguous sublist of `hay`
(Python `needle in hay` on strings). -/
def infixOf (needle : List Char) : List Char → Bool
  | [] => needle.isEmpty
  | c :: t => needle.isPrefixOf (c :: t) || infixOf needle t

/-- Python `needle in hay` for strings: substring containment. -/
def strContains (hay needle : String) : Bool :=
  infixOf needle.data hay.data

/-- Python subscript `v[k]` with a string key: dict lookup (`KeyError` when
missing); `TypeError` on lists, strings and scalars. -/
def pyGetItem (v : JValue) (k : String) : Except PyErr JValue :=
  match v with
  | .obj fields =>
      match jdictGet fields k with
      | some x => .ok x
      | none => .error (.keyError k)
  | .arr _ => .error (.typeError "list indices must be integers or slices, not str")
  | .str _ => .error (.typeError "string indices must be integers")
  | _ => .error (.typeError "object is not subscriptable")

/-- Python `k in v`: key membership on dicts, element equality on lists,
substring test on strings, `TypeError` otherwise. -/
def pyContains (v : JValue) (k : String) : Except PyErr Bool :=
  match v with
  | .obj fields => .ok (jdictGet fields k).isSome
  | .arr items => .ok (items.any (fun x => jeqStr x k))
  | .str s => .ok (strContains s k)
  | _ => .error (.typeError "argument is not iterable")

/-- `isinstance(v, dict)`. -/
def isJDict : JValue → Bool
  | .obj _ => true
  | _ => false

/-- The mutable attributes of the `ConnectorSlack` instance that the claims
are about.  `auth_info`, `user_info` and `bot_id` start as `None` in
`__init__`; `known_users` starts as `{}`. -/
structure ConnState where
  bot_name : String
  icon_emoji : String
  default_target : String
  start_thread : Bool
  token : String
  bot_id : Option JValue
  auth_info : Option JValue
  user_info : Option JValue
  known_users : List (String × JValue)

/-- Opaque domain events handed over by the event creator. -/
abbrev SlackEvent := Nat

/-- What `self._event_creator.create_event` can leave in the local variable
`event`: `None`, a single event, or a list of events. -/
inductive EventResult where
  | noEvent
  | single (e : SlackEvent)
  | listOf (es : List SlackEvent)

/-- One argument of one call to `self.opsdroid.parse`: either a single event
or a whole list object. -/
inductive ParseArg where
  | one (e : SlackEvent)
  | many (es : List SlackEvent)
  deriving DecidableEq

/-- An HTTP response produced by the handler: `aiohttp.web.json_response`
(default status 200) or `aiohttp.web.Response(text=..., status=...)`. -/
inductive HResponse where
  | jsonResp (body : JValue) (status : Nat)
  | textResp (body : String) (status : Nat)

/-- `aiohttp.web.Response(text=json.dumps("Received"), status=200)`. -/
def receivedResponse : HResponse :=
  .textResp "\"Received\"" 200

/-- An inbound request, by content type, carrying the outcome of decoding its
payload (`json.loads(req["payload"])` for form data, `request.json()` for
JSON; decoding failures are raised exceptions). -/
inductive Request where
  | formUrlencoded (payloadDecode : Except PyErr JValue)
  | jsonContent (bodyDecode : Except PyErr JValue)
  | otherContent

/-- Lines 108-115: `payload = {}` unless the content type is form-encoded or
JSON, in which case the decoded body (a decode failure propagates). -/
def decodePayload : Request → Except PyErr JValue
  | .formUrlencoded e => e
  | .jsonContent e => e
  | .otherContent => .ok (.obj [])

/-- Run the sequence of `await self.opsdroid.parse(...)` calls: returns the
calls actually issued and the first raised exception, if any (which aborts
the remaining calls). -/
def runCalls (parse : ParseArg → Except PyErr Unit) :
    List ParseArg → List ParseArg × Option PyErr
  | [] => ([], none)
  | a :: rest =>
      match parse a with
      | .ok _ =>
          let r := runCalls parse rest
          (a :: r.1, r.2)
      | .error err => ([a], some err)

/-- The sequence of `opsdroid.parse` call arguments determined by the two
`isinstance` checks on `event` (lines 135-142).  NOTE the source bug on
line 138: inside `for e in event:` the code calls
`self.opsdroid.parse(event)` — the whole list — once per element, never
`parse(e)`. -/
def eventArgs : EventResult → List ParseArg
  | .noEvent => []
  | .single e => [.one e]
  | .listOf es => es.map (fun _ => .many es)

/-- Lines 135-144: issue the parse calls for `event` sequentially, then the
fixed acknowledgement; a raised parse exception propagates. -/
def dispatchEvent (parse : ParseArg → Except PyErr Unit) (event : EventResult) :
    List ParseArg × Except PyErr HResponse :=
  match runCalls parse (eventArgs event) with
  | (calls, some err) => (calls, .error err)
  | (calls, none) => (calls, .ok receivedResponse)

/-- Lines 94-144, `slack_event_handler`: decode the payload, branch on
`payload["type"]`, create the event(s), forward to `opsdroid.parse`, and
acknowledge.  `create` embeds `self._event_creator.create_event`; `parse`
embeds `self.opsdroid.parse`.  Returns the parse calls issued and the
response, or the exception that escaped. -/
def slack_event_handler (create : JValue → Except PyErr EventResult)
    (parse : ParseArg → Except PyErr Unit) (req : Request) :
    List ParseArg × Except PyErr HResponse :=
  match decodePayload req with
  | .error e => ([], .error e)
  | .ok payload =>
    match pyContains payload "type" with
    | .error e => ([], .error e)
    | .ok false => dispatchEvent parse .noEvent
    | .ok true =>
      match pyGetItem payload "type" with
      | .error e => ([], .error e)
      | .ok t =>
        if jeqStr t "url_verification" then
          match pyGetItem payload "challenge" with
          | .error e => ([], .error e)
          | .ok c => ([], .ok (.jsonResp (.obj [("challenge", c)]) 200))
        else if jeqStr t "event_callback" then
          match pyGetItem payload "event" with
          | .error e => ([], .error e)
          | .ok inner =>
            match create inner with
            | .error e => ([], .error e)
            | .ok event => dispatchEvent parse event
        else if jeqStr t "block_actions" || jeqStr t "message_action" ||
            jeqStr t "view_submission" || jeqStr t "view_closed" then
          match create payload with
          | .error e => ([], .error e)
          | .ok event => dispatchEvent parse event
        else
          dispatchEvent parse .noEvent

/-- Lines 60-73, the body of the `try:` block of `connect`: identity
verification (`auth.test`), self-profile lookup (`users.info`), bot-id
extraction, ingress-route registration.  `authTest` embeds the outcome of
`(await api_call("auth.test")).data`; `usersInfo uid` the outcome of the
`users.info` call's `.data`; `addRoute` the outcome of
`router.add_post(...)`.  Attribute assignments are threaded so that a partial
run leaves the attributes the source would leave. -/
def connectBody (st : ConnState) (authTest : Except PyErr JValue)
    (usersInfo : JValue → Except PyErr JValue) (addRoute : Except PyErr Unit) :
    ConnState × Except PyErr Unit :=
  match authTest with
    | .error e => (st, .error e)
    | .ok authData =>
      let st1 := { st with auth_info := some authData }
      match pyGetItem authData "user_id" with
      | .error e => (st1, .error e)
      | .ok uid =>
        match usersInfo uid with
        | .error e => (st1, .error e)
        | .ok userData =>
          let st2 := { st1 with user_info := some userData }
          match pyGetItem userData "user" >>= fun u =>
                pyGetItem u "profile" >>= fun p => pyGetItem p "bot_id" with
          | .error e => (st2, .error e)
          | .ok bid =>
            let st3 := { st2 with bot_id := some bid }
            match addRoute with
            | .error e => (st3, .error e)
            | .ok _ => (st3, .ok ())

/-- The `except SlackApiError` clause around the whole sequence: a raised
`SlackApiError` is logged and swallowed (normal return), any other raised
exception escapes `connect`. -/
def connect (st : ConnState) (authTest : Except PyErr JValue)
    (usersInfo : JValue → Except PyErr JValue) (addRoute : Except PyErr Unit) :
    ConnState × Except PyErr Unit :=
  match connectBody st authTest usersInfo addRoute with
  | (st', .error e) => if e.isSlackApi then (st', .ok ()) else (st', .error e)
  | ok => ok

/-- Lines 146-158, `lookup_username`: cache hit returns the cached value; on
a miss, one `users_info` network call, the `"user"` field is extracted and
cached only when it is a dict.  `users_info uid` embeds
`(await self.slack_web_client.users_info(user=uid)).data`.  The `Bool`
records whether the network call was performed. -/
def lookup_username (st : ConnState) (users_info : String → Except PyErr JValue)
    (userid : String) : ConnState × Except PyErr JValue × Bool :=
  match jdictGet st.known_users userid with
  | some user_info => (st, .ok user_info, false)
  | none =>
    match users_info userid with
    | .error e => (st, .error e, true)
    | .ok response =>
      match pyGetItem response "user" with
      | .error e => (st, .error e, true)
      | .ok user_info =>
        if isJDict user_info then
          ({ st with known_users := dictSet st.known_users userid user_info },
           .ok user_info, true)
        else
          (st, .ok user_info, true)

/-- The character class `[A-Z0-9]` of the mention pattern. -/
def isIdChar (c : Char) : Bool :=
  c.isUpper || c.isDigit

/-- Index of the last occurrence of `'>'` in a segment (the landing point of
the greedy, backtracking tail of the pattern). -/
def lastGtIdx : List Char → Option Nat
  | [] => none
  | c :: t =>
      match lastGtIdx t with
      | some j => some (j + 1)
      | none => if c = '>' then some 0 else none

/-- One attempted match of the Python regex `\<\@([A-Z0-9]+)(?:\|.+)?\>` at
the head of the input: on success, the captured group and the remaining
input after the match.  The group is greedy-maximal; the optional
`(?:\|.+)?` is tried greedily, with `.` excluding a newline and `.+\>`
backtracking to the last `'>'` before the next newline. -/
def mentionMatchAt : List Char → Option (String × List Char)
  | '<' :: '@' :: rest =>
      let run := rest.takeWhile isIdChar
      let rest2 := rest.dropWhile isIdChar
      if run.isEmpty then none
      else
        match rest2 with
        | '>' :: tail => some (⟨run⟩, tail)
        | '|' :: tail =>
            let seg := tail.takeWhile (fun c => c ≠ '\n')
            (match lastGtIdx seg with
              | some p => if 1 ≤ p then some (⟨run⟩, tail.drop (p + 1)) else none
              | none => none)
        | _ => none
  | _ => none

/-- `re.findall` scanning for the mention pattern: try every start position
left to right, and resume after the end of each non-overlapping match.  The
fuel is the input length; every step consumes at least one character. -/
def findallMentions : Nat → List Char → List String
  | 0, _ => []
  | _, [] => []
  | fuel + 1, c :: t =>
      match mentionMatchAt (c :: t) with
      | some (id, rest) => id :: findallMentions fuel rest
      | none => findallMentions fuel t

/-- Line 162: `re.findall(r"\<\@([A-Z0-9]+)(?:\|.+)?\>", message)`. -/
def findUserIds (message : String) : List String :=
  findallMentions message.data.length message.data

/-- Python `str.replace`, all occurrences, scanning left to right and not
overlapping; the pattern is nonempty at every call site. -/
def replaceChars : Nat → List Char → List Char → List Char → List Char
  | 0, s, _, _ => s
  | _, [], _, _ => []
  | fuel + 1, c :: t, old, new =>
      if old.isPrefixOf (c :: t) then
        new ++ replaceChars fuel ((c :: t).drop old.length) old new
      else
        c :: replaceChars fuel t old new

/-- `message.replace(old, new)`. -/
def pyReplace (s old new : String) : String :=
  ⟨replaceChars s.data.length s.data old.data new.data⟩

/-- Lines 164-168: the loop body of `replace_usernames`: for each found id,
`lookup_username` (a raised lookup error aborts the whole call), then
`message.replace("<@" + userid + ">", user_info["name"])`
(`KeyError` if the profile has no name, `TypeError` if the name is not a
string). -/
def substLoop (net : String → Except PyErr JValue) :
    ConnState → List String → String → ConnState × Except PyErr String
  | st, [], message => (st, .ok message)
  | st, userid :: rest, message =>
      match lookup_username st net userid with
      | (st', .ok user_info, _) =>
          (match pyGetItem user_info "name" with
            | .ok (.str name) =>
                substLoop net st' rest (pyReplace message ("<@" ++ userid ++ ">") name)
            | .ok _ => (st', .error (.typeError "replace() argument 2 must be str"))
            | .error e => (st', .error e))
      | (st', .error e, _) => (st', .error e)

/-- Lines 160-170, `replace_usernames`. -/
def replace_usernames (st : ConnState) (net : String → Except PyErr JValue)
    (message : String) : ConnState × Except PyErr String :=
  substLoop net st (findUserIds message) message

/-- A `linked_event`: its `event_id` and its `raw_event` payload dict. -/
structure LinkedEvent where
  event_id : JValue
  raw_event : List (String × JValue)

/-- An outgoing `opsdroid.events.Message`. -/
structure Message where
  target : JValue
  text : JValue
  linked_event : Option LinkedEvent

/-- An outgoing `opsdroid.events.EditedMessage`; its `linked_event` is used
directly as the timestamp-id. -/
structure EditedMessage where
  target : JValue
  text : JValue
  linked_event : JValue

/-- An outgoing `Blocks` event. -/
structure Blocks where
  target : JValue
  blocks : JValue

/-- An outgoing `EditedBlocks` event; its `linked_event` is used directly as
the timestamp-id. -/
structure EditedBlocks where
  target : JValue
  blocks : JValue
  linked_event : JValue

/-- An outgoing `opsdroid.events.Reaction`: the emoji glyph and the linked
event whose `event_id` is the reacted-to timestamp. -/
structure Reaction where
  target : JValue
  emoji : String
  linked_event_id : JValue

/-- An outgoing `opsdroid.events.NewRoom`. -/
structure NewRoom where
  name : JValue

/-- An outgoing `opsdroid.events.RoomName`. -/
structure RoomName where
  target : JValue
  name : JValue

/-- An outgoing `opsdroid.events.JoinRoom`. -/
structure JoinRoom where
  target : JValue

/-- An outgoing `opsdroid.events.UserInvite`. -/
structure UserInvite where
  target : JValue
  user : JValue
  user_id : JValue

/-- An outgoing `opsdroid.events.RoomDescription`. -/
structure RoomDescription where
  target : JValue
  description : JValue

/-- An outgoing `opsdroid.events.PinMessage`: `linked_event_id` embeds
`pin_event.linked_event.event_id`. -/
structure PinMessage where
  target : JValue
  linked_event_id : JValue

/-- An outgoing `opsdroid.events.UnpinMessage`. -/
structure UnpinMessage where
  target : JValue
  linked_event_id : JValue

/-- A platform API call description: method name and the `data` mapping. -/
abbrev CallSpec := String × List (String × JValue)

/-- Lines 172-196, `_send_message`: build the `chat.postMessage` data; if the
linked event's raw payload carries `"thread_ts"` and the linked event's id
differs from it, propagate that marker; with a marker equal to the id,
nothing happens (the `elif` is not reached); with no marker, start a thread
from the linked event's id only when `self.start_thread` is set. -/
def _send_message (st : ConnState) (message : Message) : ConnState × CallSpec :=
  let data : List (String × JValue) :=
    [("channel", message.target), ("text", message.text),
     ("username", .str st.bot_name), ("icon_emoji", .str st.icon_emoji)]
  let data :=
    match message.linked_event with
    | some linked =>
        (match jdictGet linked.raw_event "thread_ts" with
          | some marker =>
              if jeq linked.event_id marker then data
              else dictSet data "thread_ts" marker
          | none =>
              if st.start_thread then dictSet data "thread_ts" linked.event_id
              else data)
    | none => data
  (st, ("chat.postMessage", data))

/-- Lines 198-213, `_edit_message`. -/
def _edit_message (st : ConnState) (message : EditedMessage) : ConnState × CallSpec :=
  (st, ("chat.update",
    [("channel", message.target), ("ts", message.linked_event),
     ("text", message.text)]))

/-- Lines 215-230, `_send_blocks`. -/
def _send_blocks (st : ConnState) (blocks : Blocks) : ConnState × CallSpec :=
  (st, ("chat.postMessage",
    [("channel", blocks.target), ("username", .str st.bot_name),
     ("blocks", blocks.blocks), ("icon_emoji", .str st.icon_emoji)]))

/-- Lines 232-246, `_edit_blocks`. -/
def _edit_blocks (st : ConnState) (blocks : EditedBlocks) : ConnState × CallSpec :=
  (st, ("chat.update",
    [("channel", blocks.target), ("ts", blocks.linked_event),
     ("blocks", blocks.blocks)]))

/-- Lines 248-266, `send_reaction`: demojize the glyph, strip the colons,
issue `reactions.add`; a raised `SlackApiError` whose text contains
`"invalid_name"` is swallowed (warning, `None` returned), any other raised
error propagates.  `demojize` embeds `emoji.demojize`; `apiCall` the SDK
call. -/
def send_reaction (st : ConnState) (demojize : String → String)
    (apiCall : String → List (String × JValue) → Except PyErr JValue)
    (reaction : Reaction) : ConnState × Except PyErr (Option JValue) :=
  let emojiName := pyReplace (demojize reaction.emoji) ":" ""
  match apiCall "reactions.add"
      [("name", .str emojiName), ("channel", reaction.target),
       ("timestamp", reaction.linked_event_id)] with
  | .ok r => (st, .ok (some r))
  | .error e =>
      if e.isSlackApi then
        if strContains e.text "invalid_name" then (st, .ok none)
        else (st, .error e)
      else (st, .error e)

/-- Lines 268-274, `_send_room_creation`. -/
def _send_room_creation (st : ConnState) (creation_event : NewRoom) :
    ConnState × CallSpec :=
  (st, ("conversations.create", [("name", creation_event.name)]))

/-- Lines 276-285, `_send_room_name_set`. -/
def _send_room_name_set (st : ConnState) (name_event : RoomName) :
    ConnState × CallSpec :=
  (st, ("conversations.rename",
    [("channel", name_event.target), ("name", name_event.name)]))

/-- Lines 287-291, `_send_join_room`. -/
def _send_join_room (st : ConnState) (join_event : JoinRoom) :
    ConnState × CallSpec :=
  (st, ("conversations.join", [("channel", join_event.target)]))

/-- Lines 293-302, `_send_user_invitation`. -/
def _send_user_invitation (st : ConnState) (invite_event : UserInvite) :
    ConnState × CallSpec :=
  (st, ("conversations.invite",
    [("channel", invite_event.target), ("users", invite_event.user_id)]))

/-- Lines 304-309, `_send_room_description`. -/
def _send_room_description (st : ConnState) (desc_event : RoomDescription) :
    ConnState × CallSpec :=
  (st, ("conversations.setTopic",
    [("channel", desc_event.target), ("topic", desc_event.description)]))

/-- Lines 311-319, `_send_pin_message`. -/
def _send_pin_message (st : ConnState) (pin_event : PinMessage) :
    ConnState × CallSpec :=
  (st, ("pins.add",
    [("channel", pin_event.target), ("timestamp", pin_event.linked_event_id)]))

/-- Lines 321-329, `_send_unpin_message`. -/
def _send_unpin_message (st : ConnState) (unpin_event : UnpinMessage) :
    ConnState × CallSpec :=
  (st, ("pins.remove",
    [("channel", unpin_event.target), ("timestamp", unpin_event.linked_event_id)]))

/-! ### Statements transcribed from the specification's claims

The following definitions are not translated from the source; each
transcribes the wording of one spec claim so that the claim can be compared
with the embedded code. -/

/-- Transcription of claim C2's tie-break: marker present and different from
the linked event's id → the raw marker; otherwise, `start_thread` enabled
and a linked event present → the linked event's own id; otherwise no
`thread_ts` parameter. -/
def claimedThreadTs (start_thread : Bool) (linked : Option LinkedEvent) :
    Option JValue :=
  match linked with
  | none => none
  | some l =>
      match jdictGet l.raw_event "thread_ts" with
      | some marker =>
          if jeq l.event_id marker = false then some marker
          else if start_thread then some l.event_id else none
      | none => if start_thread then some l.event_id else none

/-- The tie-break the code implements (amended claim C2): the raw marker when
present and different from the linked event's id; no `thread_ts` when the
marker is present and equal to the id (whatever `start_thread` says); the
linked event's own id only when no marker is present and `start_thread` is
enabled; no `thread_ts` otherwise. -/
def codeThreadTs (start_thread : Bool) (linked : Option LinkedEvent) :
    Option JValue :=
  match linked with
  | none => none
  | some l =>
      match jdictGet l.raw_event "thread_ts" with
      | some marker => if jeq l.event_id marker then none else some marker
      | none => if start_thread then some l.event_id else none

/-- Claim C2 as stated: the produced call's `thread_ts` always follows
`claimedThreadTs`. -/
def claimC2 : Prop :=
  ∀ (st : ConnState) (msg : Message),
    jdictGet (_send_message st msg).2.2 "thread_ts"
      = claimedThreadTs st.start_thread msg.linked_event

/-- A request that is not a verification challenge: its decoded payload's
`"type"` entry is not the string `"url_verification"`. -/
def notChallenge (req : Request) : Prop :=
  ∀ payload, decodePayload req = Except.ok payload →
    pyGetItem payload "type" ≠ Except.ok (JValue.str "url_verification")

/-- Claim C3 as stated: every non-challenge request gets the fixed 200
`"Received"` acknowledgement, whatever happens inside classification and
event intake. -/
def claimC3 : Prop :=
  ∀ (create : JValue → Except PyErr EventResult)
    (parse : ParseArg → Except PyErr Unit) (req : Request),
    notChallenge req →
    (slack_event_handler create parse req).2 = Except.ok receivedResponse

/-- Claim C4 as stated: no exception of any kind escapes `connect`. -/
def claimC4 : Prop :=
  ∀ (st : ConnState) (authTest : Except PyErr JValue)
    (usersInfo : JValue → Except PyErr JValue) (addRoute : Except PyErr Unit),
    (connect st authTest usersInfo addRoute).2 = Except.ok ()

/-- Transcription of amended claim C5's substitution: for each identifier the
scan found, in scan order, every occurrence of the PLAIN token `<@ID>` is
replaced by the display name resolved for `ID`. -/
def applyMentionSubst (f : String → String) (ids : List String)
    (msg : String) : String :=
  ids.foldl (fun m uid => pyReplace m ("<@" ++ uid ++ ">") (f uid)) msg

/-- Transcription of amended claim C5's resolution premise: identifier `uid`
resolves to display name `name` — either it is already cached with a profile
whose `"name"` is `name`, or it is uncached and one `users.info` network
lookup yields a response whose `"user"` profile has `"name"` equal to
`name`. -/
def resolvesTo (st : ConnState) (net : String → Except PyErr JValue)
    (uid name : String) : Prop :=
  (∃ prof, jdictGet st.known_users uid = some prof
     ∧ pyGetItem prof "name" = Except.ok (JValue.str name))
  ∨ (jdictGet st.known_users uid = none
     ∧ ∃ resp prof, net uid = Except.ok resp
        ∧ pyGetItem resp "user" = Except.ok prof
        ∧ pyGetItem prof "name" = Except.ok (JValue.str name))

/-! ### Concrete fixtures used to evaluate the embedded code -/

/-- A freshly constructed connector state (the `__init__` defaults). -/
def st0 : ConnState :=
  { bot_name := "opsdroid", icon_emoji := ":robot_face:",
    default_target := "#general", start_thread := false, token := "abc123",
    bot_id := none, auth_info := none, user_info := none, known_users := [] }

/-- A backing profile store for `users.info`: `U1` and `U2AB` resolve, other
identifiers fail. -/
def netU : String → Except PyErr JValue := fun uid =>
  if uid = "U1" then
    .ok (.obj [("ok", .bool true), ("user", .obj [("name", .str "Test User")])])
  else if uid = "U2AB" then
    .ok (.obj [("ok", .bool true), ("user", .obj [("name", .str "Other User")])])
  else
    .error (.slackApiError "users_info failed: user_not_found")

/-- `st0` after `U1`'s profile has been cached. -/
def stU1 : ConnState :=
  { st0 with known_users := [("U1", JValue.obj [("name", JValue.str "Test User")])] }

/-- An event creator that returns a two-element list of events. -/
def createTwo : JValue → Except PyErr EventResult :=
  fun _ => .ok (.listOf [1, 2])

/-- An event creator that produces nothing. -/
def createNone : JValue → Except PyErr EventResult :=
  fun _ => .ok .noEvent

/-- An event-intake function that always succeeds. -/
def okParse : ParseArg → Except PyErr Unit :=
  fun _ => .ok ()

/-- An `event_callback` payload whose nested event yields a list of events. -/
def listPayload : JValue :=
  .obj [("type", .str "event_callback"), ("event", .obj [("channel", .str "C1")])]

/-! ### Helper lemmas -/

lemma jeqStr_eq_true {v : JValue} {s : String} (h : jeqStr v s = true) :
    v = .str s := by
  cases v <;> simp [jeqStr] at h
  exact congrArg JValue.str h

lemma pyContains_of_getItem {v : JValue} {k : String} {x : JValue}
    (h : pyGetItem v k = .ok x) : pyContains v k = .ok true := by
  cases v <;> simp [pyGetItem] at h
  next fields =>
    cases hg : jdictGet fields k with
    | none => rw [hg] at h; exact absurd h (by simp)
    | some y => simp [pyContains, hg]

lemma dispatchEvent_ok_eq {parse : ParseArg → Except PyErr Unit}
    {ev : EventResult} {r : HResponse}
    (h : (dispatchEvent parse ev).2 = .ok r) : r = receivedResponse := by
  unfold dispatchEvent at h
  rcases hr : runCalls parse (eventArgs ev) with ⟨calls, o⟩
  rw [hr] at h
  cases o with
  | none => simpa using h.symm
  | some err => simp at h

lemma jdictGet_dictSet_same (d : List (String × JValue)) (k : String)
    (v : JValue) : jdictGet (dictSet d k v) k = some v := by
  induction d with
  | nil => simp [dictSet, jdictGet]
  | cons hd tl ih =>
      rcases hd with ⟨k', v'⟩
      by_cases hk : k' = k
      · simp [dictSet, hk, jdictGet]
      · simp [dictSet, hk, jdictGet, ih]

lemma jdictGet_dictSet_ne (d : List (String × JValue)) {k k' : String}
    (v : JValue) (hne : k ≠ k') : jdictGet (dictSet d k' v) k = jdictGet d k := by
  have hne' : ¬(k' = k) := fun h => hne h.symm
  induction d with
  | nil => simp [dictSet, jdictGet, hne']
  | cons hd tl ih =>
      rcases hd with ⟨k'', v''⟩
      by_cases hk : k'' = k'
      · subst hk
        simp [dictSet, jdictGet, hne']
      · by_cases hk2 : k'' = k <;> simp [dictSet, jdictGet, hk, hk2, ih, hne', hne]

/-! ### Claim C8 -/

/-- C8: for every inbound payload whose `type` is `"url_verification"` with
challenge value `c`, `slack_event_handler` responds with exactly the JSON
body containing the single entry `challenge ↦ c`, issues no parse call, and
does so for every event creator (the creator is never consulted). -/
theorem url_verification_short_circuit
    (create : JValue → Except PyErr EventResult)
    (parse : ParseArg → Except PyErr Unit) (req : Request) (payload c : JValue)
    (hdec : decodePayload req = Except.ok payload)
    (htype : pyGetItem payload "type" = Except.ok (JValue.str "url_verification"))
    (hch : pyGetItem payload "challenge" = Except.ok c) :
    slack_event_handler create parse req
      = ([], Except.ok (HResponse.jsonResp (JValue.obj [("challenge", c)]) 200)) := by
  simp only [slack_event_handler, hdec, pyContains_of_getItem htype, htype, hch]
  simp [jeqStr]

/-- C8 witness: the spec's example payload. -/
def challengePayload : JValue :=
  .obj [("type", .str "url_verification"), ("challenge", .str "abc")]

/-- C8 witness: the concrete challenge request is echoed back. -/
theorem url_verification_short_circuit_witness :
    slack_event_handler createNone okParse
        (Request.jsonContent (Except.ok challengePayload))
      = ([], Except.ok (HResponse.jsonResp
          (JValue.obj [("challenge", JValue.str "abc")]) 200)) :=
  url_verification_short_circuit createNone okParse _ challengePayload
    (JValue.str "abc") rfl rfl rfl

/-! ### Claim C3 -/

/-- An event creator that produces one event. -/
def createOne : JValue → Except PyErr EventResult :=
  fun _ => .ok (.single 7)

/-- An event-intake function that always raises. -/
def failParse : ParseArg → Except PyErr Unit :=
  fun _ => .error (.otherError "parse failed")

/-- A well-formed `event_callback` request used to exhibit exception
propagation out of the handler. -/
def reqC3 : Request :=
  .jsonContent (.ok (.obj [("type", .str "event_callback"),
                           ("event", .obj [])]))

/-- C3 counterexample: the acknowledgement contract is not unconditional —
with a payload of type `event_callback` and an event-intake function that
raises, the raised exception escapes `slack_event_handler` and no 200
`"Received"` response is produced. -/
theorem ack_unconditional_counterexample : ¬ claimC3 := by
  intro h
  have hnc : notChallenge reqC3 := by
    intro payload hp
    simp only [reqC3, decodePayload] at hp
    injection hp with hp'
    subst hp'
    intro hcontra
    have hv : pyGetItem (JValue.obj [("type", JValue.str "event_callback"),
        ("event", JValue.obj [])]) "type"
        = Except.ok (JValue.str "event_callback") := rfl
    rw [hv] at hcontra
    injection hcontra with h1
    injection h1 with h2
    exact absurd h2 (by decide)
  have hval : (slack_event_handler createOne failParse reqC3).2
      = Except.error (PyErr.otherError "parse failed") := rfl
  have hack := h createOne failParse reqC3 hnc
  rw [hval] at hack
  exact Except.noConfusion hack

/-- C3 amended: whenever `slack_event_handler` completes without a raised
exception on a request that is not a verification challenge, the response is
the fixed 200 `"Received"` acknowledgement (whatever the payload's shape and
whether any event was produced); but classification and event-intake
exceptions do escape the handler instead of being converted into the
acknowledgement. -/
theorem ack_fixed_on_success (create : JValue → Except PyErr EventResult)
    (parse : ParseArg → Except PyErr Unit) (req : Request) (r : HResponse)
    (hnc : notChallenge req)
    (h : (slack_event_handler create parse req).2 = Except.ok r) :
    r = receivedResponse := by
  unfold slack_event_handler at h
  split at h
  next e heq => simp at h
  next payload heq =>
    split at h
    next e heq2 => simp at h
    next heq2 => exact dispatchEvent_ok_eq h
    next heq2 =>
      split at h
      next e heq3 => simp at h
      next t heq3 =>
        split at h
        next hurl =>
          rw [jeqStr_eq_true hurl] at heq3
          exact absurd heq3 (hnc payload heq)
        next hurl =>
          split at h
          next hec =>
            split at h
            next e heq4 => simp at h
            next inner heq4 =>
              split at h
              next e heq5 => simp at h
              next ev heq5 => exact dispatchEvent_ok_eq h
          next hec =>
            split at h
            next hia =>
              split at h
              next e heq4 => simp at h
              next ev heq4 => exact dispatchEvent_ok_eq h
            next hia => exact dispatchEvent_ok_eq h

/-- C3 witness: a request of unsupported content type satisfies the
hypotheses and gets the fixed acknowledgement. -/
theorem ack_fixed_on_success_witness : receivedResponse = receivedResponse :=
  ack_fixed_on_success createNone okParse Request.otherContent receivedResponse
    (by
      intro payload hp
      simp only [decodePayload] at hp
      injection hp with hp'
      subst hp'
      intro hcontra
      have hv : pyGetItem (JValue.obj []) "type"
          = Except.error (PyErr.keyError "type") := rfl
      rw [hv] at hcontra
      exact Except.noConfusion hcontra)
    rfl

/-! ### Claim C1 -/

/-- C1 (documents the source defect): when the event creator returns the
two-element list `[1, 2]`, `slack_event_handler` issues two forwarding
calls, each passing the WHOLE LIST object to `opsdroid.parse`, and this is
not the claimed element-by-element forwarding `parse 1; parse 2`. -/
theorem list_forwarding_bug :
    slack_event_handler createTwo okParse (Request.jsonContent (Except.ok listPayload))
      = ([ParseArg.many [1, 2], ParseArg.many [1, 2]], Except.ok receivedResponse)
    ∧ [ParseArg.many [1, 2], ParseArg.many [1, 2]]
        ≠ [ParseArg.one 1, ParseArg.one 2] :=
  ⟨rfl, by decide⟩

/-! ### Claim C2 -/

/-- C2 counterexample: with `start_thread` enabled and a linked event whose
raw payload carries a `thread_ts` equal to the linked event's own id, the
claimed tie-break demands `thread_ts` = the linked event's id, but the
produced `chat.postMessage` data carries no `thread_ts` at all (the
`start_thread` branch sits behind `elif` and is never reached when the raw
marker exists). -/
theorem send_message_thread_counterexample : ¬ claimC2 := by
  intro h
  have hc := h { st0 with start_thread := true }
      { target := .str "room", text := .str "hi",
        linked_event := some { event_id := .str "123",
                               raw_event := [("thread_ts", .str "123")] } }
  have h1 : jdictGet (_send_message { st0 with start_thread := true }
      { target := .str "room", text := .str "hi",
        linked_event := some { event_id := .str "123",
                               raw_event := [("thread_ts", .str "123")] } }).2.2
      "thread_ts" = none := rfl
  have h2 : claimedThreadTs true
      (some { event_id := JValue.str "123",
              raw_event := [("thread_ts", JValue.str "123")] })
      = some (JValue.str "123") := rfl
  rw [h1, h2] at hc
  exact Option.noConfusion hc

/-- C2 amended: the `thread_ts` parameter of the produced `chat.postMessage`
call follows `codeThreadTs`: the raw marker when the linked event's raw
payload carries one differing from the linked event's id; nothing when the
carried marker equals the id (regardless of `start_thread`); the linked
event's own id when no marker is carried, `start_thread` is enabled and a
linked event exists; nothing otherwise. -/
theorem send_message_thread_policy (st : ConnState) (msg : Message) :
    jdictGet (_send_message st msg).2.2 "thread_ts"
      = codeThreadTs st.start_thread msg.linked_event := by
  rcases msg with ⟨tgt, txt, le⟩
  cases le with
  | none => rfl
  | some l =>
      rcases l with ⟨eid, raw⟩
      simp only [_send_message, codeThreadTs]
      cases hr : jdictGet raw "thread_ts" with
      | none =>
          cases hst : st.start_thread with
          | false => rfl
          | true => rfl
      | some marker =>
          cases hj : jeq eid marker with
          | false => simp only [hj]; rfl
          | true => simp only [hj]; rfl

/-! ### Claim C4 -/

/-- C4 counterexample: `connect` catches only `SlackApiError`; when
`auth.test` succeeds but its data lacks `"user_id"`, the `KeyError` escapes
`connect`, so not every failure is caught. -/
theorem connect_no_escape_counterexample : ¬ claimC4 := by
  intro h
  have hc := h st0 (.ok (.obj [])) (fun _ => .ok (.obj [])) (.ok ())
  have hv : (connect st0 (.ok (.obj [])) (fun _ => .ok (.obj [])) (.ok ())).2
      = Except.error (PyErr.keyError "user_id") := rfl
  rw [hv] at hc
  exact Except.noConfusion hc

/-- C4 amended: every `SlackApiError` raised during the `connect` sequence is
caught so that `connect` returns normally, and a `SlackApiError` never
escapes; an exception of any other kind escapes `connect` unchanged. -/
theorem connect_error_policy :
    (∀ (st : ConnState) (a : Except PyErr JValue)
        (u : JValue → Except PyErr JValue) (r : Except PyErr Unit) (e : PyErr),
       (connect st a u r).2 = Except.error e → e.isSlackApi = false)
    ∧ (∀ (st : ConnState) (a : Except PyErr JValue)
        (u : JValue → Except PyErr JValue) (r : Except PyErr Unit)
        (st' : ConnState) (e : PyErr),
       connectBody st a u r = (st', Except.error e) → e.isSlackApi = true →
       connect st a u r = (st', Except.ok ())) := by
  constructor
  · intro st a u r e h
    unfold connect at h
    rcases hb : connectBody st a u r with ⟨st', res⟩
    rw [hb] at h
    cases res with
    | ok x => simp at h
    | error e' =>
        cases hs : e'.isSlackApi with
        | true => simp [hs] at h
        | false =>
            simp [hs] at h
            rw [← h]
            exact hs
  · intro st a u r st' e hb hs
    unfold connect
    rw [hb]
    simp [hs]

/-- C4 witness: the concrete escaping `KeyError` is not a `SlackApiError`. -/
theorem connect_error_policy_witness :
    PyErr.isSlackApi (PyErr.keyError "user_id") = false :=
  connect_error_policy.1 st0 (.ok (.obj [])) (fun _ => .ok (.obj [])) (.ok ())
    (PyErr.keyError "user_id") rfl

/-! ### Claim C5 -/

/-- C5 counterexample: a mention token carrying a display hint,
`<@U1|alice>`, is found by the scan (its id is resolved) but the token is
never replaced — `str.replace` is called with the plain `<@U1>` form, which
does not occur in the text — so the input comes back unchanged rather than
with the resolved display name substituted. -/
theorem replace_usernames_hint_counterexample :
    (replace_usernames st0 netU "hi <@U1|alice>").2 = Except.ok "hi <@U1|alice>"
    ∧ (replace_usernames st0 netU "hi <@U1|alice>").2
        ≠ Except.ok "hi Test User" := by
  refine ⟨rfl, ?_⟩
  intro hc
  have h1 : (replace_usernames st0 netU "hi <@U1|alice>").2
      = Except.ok "hi <@U1|alice>" := rfl
  rw [h1] at hc
  injection hc with h2
  exact absurd h2 (by decide)

lemma lookup_of_resolvesTo {st : ConnState} {net : String → Except PyErr JValue}
    {uid name : String} (h : resolvesTo st net uid name) :
    ∃ st' prof nc, lookup_username st net uid = (st', Except.ok prof, nc)
      ∧ pyGetItem prof "name" = Except.ok (JValue.str name)
      ∧ ∀ uid' name', resolvesTo st net uid' name' →
          resolvesTo st' net uid' name' := by
  rcases h with ⟨prof, hm, hname⟩ | ⟨hm, resp, prof, hnet, huser, hname⟩
  · refine ⟨st, prof, false, ?_, hname, fun uid' name' h' => h'⟩
    unfold lookup_username
    simp only [hm]
  · have hdict : isJDict prof = true := by
      cases prof with
      | obj fs => rfl
      | null => exact absurd hname (by simp [pyGetItem])
      | bool b => exact absurd hname (by simp [pyGetItem])
      | num n => exact absurd hname (by simp [pyGetItem])
      | str s => exact absurd hname (by simp [pyGetItem])
      | arr xs => exact absurd hname (by simp [pyGetItem])
    refine ⟨{ st with known_users := dictSet st.known_users uid prof },
      prof, true, ?_, hname, ?_⟩
    · unfold lookup_username
      simp only [hm, hnet, huser, hdict, eq_self_iff_true, if_true]
    · intro uid' name' h'
      rcases h' with ⟨p, hm', hn'⟩ | ⟨hm', resp', prof', hnet', huser', hname'⟩
      · have hne : uid' ≠ uid := by
          intro he
          rw [he, hm] at hm'
          exact Option.noConfusion hm'
        refine Or.inl ⟨p, ?_, hn'⟩
        show jdictGet (dictSet st.known_users uid prof) uid' = some p
        rw [jdictGet_dictSet_ne _ _ hne]
        exact hm'
      · by_cases he : uid' = uid
        · subst he
          refine Or.inl ⟨prof, ?_, ?_⟩
          · show jdictGet (dictSet st.known_users uid' prof) uid' = some prof
            exact jdictGet_dictSet_same _ _ _
          · rw [hnet] at hnet'
            injection hnet' with hresp
            subst hresp
            rw [huser] at huser'
            injection huser' with hprof
            subst hprof
            exact hname'
        · refine Or.inr ⟨?_, resp', prof', hnet', huser', hname'⟩
          show jdictGet (dictSet st.known_users uid prof) uid' = none
          rw [jdictGet_dictSet_ne _ _ he]
          exact hm'

lemma substLoop_resolves (net : String → Except PyErr JValue)
    (f : String → String) :
    ∀ (ids : List String) (st : ConnState) (msg : String),
      (∀ uid ∈ ids, resolvesTo st net uid (f uid)) →
      (substLoop net st ids msg).2 = Except.ok (applyMentionSubst f ids msg) := by
  intro ids
  induction ids with
  | nil => intro st msg hall; rfl
  | cons uid rest ih =>
      intro st msg hall
      obtain ⟨st', prof, nc, hl, hname, hpres⟩ :=
        lookup_of_resolvesTo (hall uid (List.mem_cons_self uid rest))
      unfold substLoop
      simp only [hl, hname]
      exact ih st' _
        (fun uid' hm => hpres uid' (f uid') (hall uid' (List.mem_cons_of_mem _ hm)))

/-- C5 amended: for every input string and state, if each identifier found by
the mention scan resolves (from the cache, or through one `users.info`
lookup when uncached) to a profile whose display name is `f ID`, then
`replace_usernames` returns the input with — for each found identifier, in
scan order — every occurrence of the PLAIN token `<@ID>` replaced by the
resolved name `f ID`; an input with no mention is returned unchanged, state
untouched; a mention written with a display hint is left in place. -/
theorem replace_usernames_plain_tokens :
    (∀ (st : ConnState) (net : String → Except PyErr JValue) (msg : String)
        (f : String → String),
       (∀ uid ∈ findUserIds msg, resolvesTo st net uid (f uid)) →
       (replace_usernames st net msg).2
         = Except.ok (applyMentionSubst f (findUserIds msg) msg))
    ∧ (∀ (st : ConnState) (net : String → Except PyErr JValue) (msg : String),
        findUserIds msg = [] → replace_usernames st net msg = (st, Except.ok msg))
    ∧ (replace_usernames st0 netU "hi <@U1|alice>").2
        = Except.ok "hi <@U1|alice>" := by
  refine ⟨?_, ?_, rfl⟩
  · intro st net msg f hall
    unfold replace_usernames
    exact substLoop_resolves net f (findUserIds msg) st msg hall
  · intro st net msg h
    unfold replace_usernames
    rw [h]
    rfl

/-- C5 witness: the spec's example — `U1` resolving to `"Test User"` turns
`"hello <@U1>"` into `"hello Test User"` — obtained from the universal
statement, discharging the resolution premise through the network path. -/
theorem replace_usernames_plain_tokens_witness :
    (replace_usernames st0 netU "hello <@U1>").2
      = Except.ok "hello Test User" :=
  replace_usernames_plain_tokens.1 st0 netU "hello <@U1>"
    (fun _ => "Test User")
    (by
      intro uid hm
      have hids : findUserIds "hello <@U1>" = ["U1"] := rfl
      rw [hids] at hm
      simp at hm
      subst hm
      exact Or.inr ⟨rfl,
        JValue.obj [("ok", JValue.bool true),
                    ("user", JValue.obj [("name", JValue.str "Test User")])],
        JValue.obj [("name", JValue.str "Test User")], rfl, rfl, rfl⟩)

/-! ### Claim C6 -/

/-- C6: once `lookup_username` has returned a well-formed (dict) profile for
an identifier, looking the same identifier up again against the same backing
store performs no network call, leaves the cache unchanged, and returns the
very value that was cached. -/
theorem lookup_username_cache_hit (st : ConnState)
    (net : String → Except PyErr JValue) (uid : String) (v : JValue)
    (st' : ConnState) (nc : Bool)
    (h : lookup_username st net uid = (st', Except.ok v, nc))
    (hdict : isJDict v = true) :
    lookup_username st' net uid = (st', Except.ok v, false) := by
  unfold lookup_username at h ⊢
  cases hm : jdictGet st.known_users uid with
  | some u =>
      simp only [hm, Prod.mk.injEq] at h
      obtain ⟨hst, hv, hnc⟩ := h
      subst hst
      injection hv with hv'
      subst hv'
      simp only [hm]
  | none =>
      simp only [hm] at h
      cases hn : net uid with
      | error e => simp only [hn] at h; simp at h
      | ok resp =>
          simp only [hn] at h
          cases hg : pyGetItem resp "user" with
          | error e => simp only [hg] at h; simp at h
          | ok ui =>
              simp only [hg] at h
              cases hd : isJDict ui with
              | true =>
                  simp only [hd, eq_self_iff_true, if_true, Prod.mk.injEq] at h
                  obtain ⟨hst, hv, hnc⟩ := h
                  injection hv with hv'
                  subst hv'
                  subst hst
                  simp only [jdictGet_dictSet_same]
              | false =>
                  simp only [hd, Bool.false_eq_true, if_false, Prod.mk.injEq] at h
                  obtain ⟨hst, hv, hnc⟩ := h
                  injection hv with hv'
                  subst hv'
                  rw [hd] at hdict
                  exact Bool.noConfusion hdict

/-- C6 witness: after `U1` has been resolved and cached, the second lookup is
a cache hit with no network call. -/
theorem lookup_username_cache_hit_witness :
    lookup_username stU1 netU "U1"
      = (stU1, Except.ok (JValue.obj [("name", JValue.str "Test User")]), false) :=
  lookup_username_cache_hit st0 netU "U1"
    (JValue.obj [("name", JValue.str "Test User")]) stU1 true rfl rfl

/-! ### Claim C7 -/

/-- C7: when the `reactions.add` call raises a `SlackApiError` whose text
contains `"invalid_name"`, `send_reaction` swallows it (warning, `None`
returned, nothing raised); when the raised `SlackApiError`'s text does not
contain it, the error is re-raised to the caller. -/
theorem send_reaction_error_policy (st : ConnState) (dem : String → String)
    (apiCall : String → List (String × JValue) → Except PyErr JValue)
    (reaction : Reaction) (e : PyErr)
    (hcall : apiCall "reactions.add"
        [("name", JValue.str (pyReplace (dem reaction.emoji) ":" "")),
         ("channel", reaction.target), ("timestamp", reaction.linked_event_id)]
        = Except.error e)
    (hslack : e.isSlackApi = true) :
    (strContains e.text "invalid_name" = true →
        send_reaction st dem apiCall reaction = (st, Except.ok none))
    ∧ (strContains e.text "invalid_name" = false →
        send_reaction st dem apiCall reaction = (st, Except.error e)) := by
  constructor <;> intro hin <;> simp [send_reaction, hcall, hslack, hin]

/-- The `SlackApiError` text Slack produces for an unsupported emoji name. -/
def invalidNameErr : PyErr :=
  .slackApiError "The request to the Slack API failed: invalid_name"

/-- A `reactions.add` call that always fails with `invalidNameErr`. -/
def apiFailInvalid : String → List (String × JValue) → Except PyErr JValue :=
  fun _ _ => .error invalidNameErr

/-- A concrete reaction event. -/
def reactionFix : Reaction :=
  { target := .str "room", emoji := "NOT_EMOJI",
    linked_event_id := .str "1582838099.000601" }

/-- C7 witness: the concrete `invalid_name` failure is swallowed. -/
theorem send_reaction_error_policy_witness :
    send_reaction st0 id apiFailInvalid reactionFix = (st0, Except.ok none) :=
  (send_reaction_error_policy st0 id apiFailInvalid reactionFix invalidNameErr
    rfl rfl).1 rfl

/-! ### Claim C9 -/

lemma connectBody_preserves_known_users (st : ConnState)
    (a : Except PyErr JValue) (u : JValue → Except PyErr JValue)
    (r : Except PyErr Unit) :
    ((connectBody st a u r).1).known_users = st.known_users := by
  unfold connectBody
  repeat' split
  all_goals rfl

lemma lookup_preserves_entry (st : ConnState)
    (net : String → Except PyErr JValue) (uid k : String) (w : JValue)
    (h : jdictGet st.known_users k = some w) :
    jdictGet ((lookup_username st net uid).1).known_users k = some w := by
  unfold lookup_username
  cases hm : jdictGet st.known_users uid with
  | some u => simpa [hm] using h
  | none =>
      cases hn : net uid with
      | error e => simpa [hm, hn] using h
      | ok resp =>
          cases hg : pyGetItem resp "user" with
          | error e => simpa [hm, hn, hg] using h
          | ok ui =>
              cases hd : isJDict ui with
              | false => simpa [hm, hn, hg, hd] using h
              | true =>
                  have hk : k ≠ uid := by
                    intro he
                    rw [he] at h
                    rw [hm] at h
                    exact Option.noConfusion h
                  simp only [hm, hn, hg, hd, eq_self_iff_true, if_true]
                  show jdictGet (dictSet st.known_users uid ui) k = some w
                  rw [jdictGet_dictSet_ne _ _ hk]
                  exact h

lemma substLoop_preserves_entry (net : String → Except PyErr JValue) :
    ∀ (ids : List String) (st : ConnState) (msg k : String) (w : JValue),
      jdictGet st.known_users k = some w →
      jdictGet ((substLoop net st ids msg).1).known_users k = some w := by
  intro ids
  induction ids with
  | nil => intro st msg k w h; exact h
  | cons uid rest ih =>
      intro st msg k w h
      unfold substLoop
      rcases hl : lookup_username st net uid with ⟨st', res, nc⟩
      have hpres := lookup_preserves_entry st net uid k w h
      rw [hl] at hpres
      cases res with
      | error e => exact hpres
      | ok user_info =>
          dsimp only
          cases hpg : pyGetItem user_info "name" with
          | error e => exact hpres
          | ok nv =>
              cases nv with
              | str name => exact ih st' _ k w hpres
              | null => exact hpres
              | bool b => exact hpres
              | num n => exact hpres
              | arr xs => exact hpres
              | obj fs => exact hpres

/-- C9: the identity cache is append-only.  An entry already present in
`known_users` survives, with the same value, every `lookup_username` call
and every `replace_usernames` call (whatever their outcome — the only code
that writes the cache inserts under an identifier that was absent);
`connect` and every outbound handler leave `known_users` exactly as it
was. -/
theorem known_users_append_only :
    (∀ (st : ConnState) (net : String → Except PyErr JValue) (uid k : String)
        (w : JValue),
       jdictGet st.known_users k = some w →
       jdictGet ((lookup_username st net uid).1).known_users k = some w)
    ∧ (∀ (st : ConnState) (net : String → Except PyErr JValue) (msg k : String)
          (w : JValue),
       jdictGet st.known_users k = some w →
       jdictGet ((replace_usernames st net msg).1).known_users k = some w)
    ∧ (∀ (st : ConnState) (a : Except PyErr JValue)
          (u : JValue → Except PyErr JValue) (r : Except PyErr Unit),
        ((connect st a u r).1).known_users = st.known_users)
    ∧ (∀ (st : ConnState) (m : Message),
        ((_send_message st m).1).known_users = st.known_users)
    ∧ (∀ (st : ConnState) (m : EditedMessage),
        ((_edit_message st m).1).known_users = st.known_users)
    ∧ (∀ (st : ConnState) (b : Blocks),
        ((_send_blocks st b).1).known_users = st.known_users)
    ∧ (∀ (st : ConnState) (b : EditedBlocks),
        ((_edit_blocks st b).1).known_users = st.known_users)
    ∧ (∀ (st : ConnState) (dem : String → String)
          (api : String → List (String × JValue) → Except PyErr JValue)
          (re : Reaction),
        ((send_reaction st dem api re).1).known_users = st.known_users)
    ∧ (∀ (st : ConnState) (e : NewRoom),
        ((_send_room_creation st e).1).known_users = st.known_users)
    ∧ (∀ (st : ConnState) (e : RoomName),
        ((_send_room_name_set st e).1).known_users = st.known_users)
    ∧ (∀ (st : ConnState) (e : JoinRoom),
        ((_send_join_room st e).1).known_users = st.known_users)
    ∧ (∀ (st : ConnState) (e : UserInvite),
        ((_send_user_invitation st e).1).known_users = st.known_users)
    ∧ (∀ (st : ConnState) (e : RoomDescription),
        ((_send_room_description st e).1).known_users = st.known_users)
    ∧ (∀ (st : ConnState) (e : PinMessage),
        ((_send_pin_message st e).1).known_users = st.known_users)
    ∧ (∀ (st : ConnState) (e : UnpinMessage),
        ((_send_unpin_message st e).1).known_users = st.known_users) := by
  refine ⟨lookup_preserves_entry,
    fun st net msg k w h => substLoop_preserves_entry net (findUserIds msg) st msg k w h,
    ?_, fun st m => rfl, fun st m => rfl, fun st b => rfl, fun st b => rfl, ?_,
    fun st e => rfl, fun st e => rfl, fun st e => rfl, fun st e => rfl,
    fun st e => rfl, fun st e => rfl, fun st e => rfl⟩
  · intro st a u r
    have hb := connectBody_preserves_known_users st a u r
    unfold connect
    rcases hcb : connectBody st a u r with ⟨st', res⟩
    rw [hcb] at hb
    cases res with
    | ok x => exact hb
    | error e =>
        cases he : e.isSlackApi with
        | true => simpa [he] using hb
        | false => simpa [he] using hb
  · intro st dem api re
    unfold send_reaction
    dsimp only
    repeat' split
    all_goals rfl

/-- C9 witness: a cached entry survives a lookup of a different identifier. -/
theorem known_users_append_only_witness :
    jdictGet ((lookup_username stU1 netU "U2AB").1).known_users "U1"
      = some (JValue.obj [("name", JValue.str "Test User")]) :=
  known_users_append_only.1 stU1 netU "U2AB" "U1"
    (JValue.obj [("name", JValue.str "Test User")]) rfl

/-! ### Claim C10 -/

/-- C10: every outbound event handler leaves the entire connector state
unchanged — outbound dispatch reads the state but never writes it. -/
theorem outbound_handlers_preserve_state :
    (∀ (st : ConnState) (m : Message), (_send_message st m).1 = st)
    ∧ (∀ (st : ConnState) (m : EditedMessage), (_edit_message st m).1 = st)
    ∧ (∀ (st : ConnState) (b : Blocks), (_send_blocks st b).1 = st)
    ∧ (∀ (st : ConnState) (b : EditedBlocks), (_edit_blocks st b).1 = st)
    ∧ (∀ (st : ConnState) (dem : String → String)
          (api : String → List (String × JValue) → Except PyErr JValue)
          (re : Reaction), (send_reaction st dem api re).1 = st)
    ∧ (∀ (st : ConnState) (e : NewRoom), (_send_room_creation st e).1 = st)
    ∧ (∀ (st : ConnState) (e : RoomName), (_send_room_name_set st e).1 = st)
    ∧ (∀ (st : ConnState) (e : JoinRoom), (_send_join_room st e).1 = st)
    ∧ (∀ (st : ConnState) (e : UserInvite), (_send_user_invitation st e).1 = st)
    ∧ (∀ (st : ConnState) (e : RoomDescription),
        (_send_room_description st e).1 = st)
    ∧ (∀ (st : ConnState) (e : PinMessage), (_send_pin_message st e).1 = st)
    ∧ (∀ (st : ConnState) (e : UnpinMessage), (_send_unpin_message st e).1 = st) := by
  refine ⟨fun st m => rfl, fun st m => rfl, fun st b => rfl, fun st b => rfl,
    ?_, fun st e => rfl, fun st e => rfl, fun st e => rfl, fun st e => rfl,
    fun st e => rfl, fun st e => rfl, fun st e => rfl⟩
  intro st dem api re
  unfold send_reaction
  dsimp only
  repeat' split
  all_goals rfl
